import Mathlib

/-
Verification development for the go-weathermap metric-polling core
(internal/service/datasource_service.go and internal/datasource/mock.go).

Modelling conventions:
* Go `map[string]T` values are embedded as association lists
  `List (String × T)` with shadowing: `mapLookup` returns the most recent
  binding, and a map write conses a new binding at the front.
* Go dynamic `interface{}` values appearing in parameter bags are embedded
  as the inductive `GoVal`; a Go type assertion `x.(T)` with the two-value
  form corresponds to the `GoVal.asT : GoVal → Option T` projections.
* Go `int64` arithmetic is embedded as `Int` with explicit wrapping
  (`wrap64`) at the operations where overflow can occur.
* The float64 division `int64(float64(delta) / elapsed)` in
  `SNMPPoller.pollTask` is embedded as exact division over ℚ followed by
  truncation toward zero (`truncRat`), with the elapsed seconds value
  passed in as a rational parameter.
-/

/-- Go dynamic value (`interface{}`) as it appears in parameter bags. -/
inductive GoVal where
  | vstr (s : String)
  | vint (n : Int)
  | vmap (m : List (String × GoVal))
  | vlist (l : List GoVal)

/-- Type assertion `.(string)`. -/
def GoVal.asString : GoVal → Option String
  | .vstr s => some s
  | _ => none

/-- Type assertion `.(int)`. -/
def GoVal.asInt : GoVal → Option Int
  | .vint n => some n
  | _ => none

/-- Type assertion `.(map[string]interface\x7b\x7d)`. -/
def GoVal.asMap : GoVal → Option (List (String × GoVal))
  | .vmap m => some m
  | _ => none

/-- Type assertion `.([]interface\x7b\x7d)`. -/
def GoVal.asList : GoVal → Option (List GoVal)
  | .vlist l => some l
  | _ => none

/-- Go map read: first (most recent) binding for the key, if any. -/
def mapLookup {α : Type} : List (String × α) → String → Option α
  | [], _ => none
  | p :: rest, key => if p.1 = key then some p.2 else mapLookup rest key

/-- config.InterfaceConfig: name plus inline parameter bag. -/
structure InterfaceConfig where
  name : String
  params : List (String × GoVal)

/-- config.DataSourceConfig: name, backend type, interfaces, poll interval
(seconds; 0 when unset), inline parameter bag. -/
structure DataSourceConfig where
  name : String
  type : String
  interfaces : List InterfaceConfig
  pollInterval : Int
  params : List (String × GoVal)

/-- service.dataPollTask. -/
structure dataPollTask where
  host : String
  port : Int
  community : String
  metricIdentifier : String
  key : String
  ds : DataSourceConfig
  intervalSeconds : Int

/-- The shared cache map of an EmbeddedPoller (`map[string]int64`). -/
abbrev MetricCache := List (String × Int)

/-- EmbeddedPoller.SetCache: `p.cache[key] = val`. -/
def EmbeddedPoller.SetCache (cache : MetricCache) (key : String) (val : Int) : MetricCache :=
  (key, val) :: cache

/-- EmbeddedPoller.GetCache: `val, ok := p.cache[key]` — a missing key
yields the zero value 0 together with `ok = false`. -/
def EmbeddedPoller.GetCache (cache : MetricCache) (key : String) : Int × Bool :=
  match mapLookup cache key with
  | some v => (v, true)
  | none => (0, false)

/-- EmbeddedPoller.AddTask: scan the registered tasks; if one with the same
Key exists, return without change, otherwise append. -/
def EmbeddedPoller.AddTask (tasks : List dataPollTask) (task : dataPollTask) : List dataPollTask :=
  if tasks.any (fun t => t.key == task.key) then tasks else tasks ++ [task]

/-- Number of registered tasks carrying a given key. -/
def countKey (tasks : List dataPollTask) (key : String) : Nat :=
  (tasks.filter (fun t => t.key == key)).length

/-- Two's-complement wrap of Go `int64` arithmetic into [-2^63, 2^63). -/
def wrap64 (x : Int) : Int := (x + 2 ^ 63) % 2 ^ 64 - 2 ^ 63

/-- Truncation of a rational toward zero, as Go's float64→int64 conversion
truncates the quotient. -/
def truncRat (q : ℚ) : Int := q.num.tdiv (q.den : Int)

/-- The private per-task loop state of SNMPPoller.pollTask: `prevValue`
and whether `prevTime` has been set (`!prevTime.IsZero()`). -/
structure TickState where
  prevValue : Int
  prevTimeSet : Bool
deriving DecidableEq

/-- One iteration of the SNMPPoller.pollTask loop body. `sample` is
`none` when the SNMP GET failed or the value was not an int64 (the tick is
skipped by `continue` before the state update); `elapsed` is
`time.Since(prevTime).Seconds()` for this tick, as an exact rational. -/
def SNMPPoller.pollTick (key : String) (sample : Option Int) (elapsed : ℚ)
    (st : TickState) (cache : MetricCache) : TickState × MetricCache :=
  match sample with
  | none => (st, cache)
  | some val =>
    let cache1 :=
      if st.prevTimeSet then
        if 0 < elapsed then
          let delta0 := wrap64 (val - st.prevValue)
          let delta1 := if delta0 < 0 then wrap64 (delta0 + 2 ^ 32) else delta0
          EmbeddedPoller.SetCache cache key (truncRat ((delta1 : ℚ) / elapsed))
        else cache
      else cache
    ({ prevValue := val, prevTimeSet := true }, cache1)

/-- Several consecutive iterations of the SNMPPoller.pollTask loop, fed a
list of (sample, elapsed) observations. -/
def SNMPPoller.runTicks (key : String) :
    List (Option Int × ℚ) → TickState → MetricCache → TickState × MetricCache
  | [], st, cache => (st, cache)
  | (sample, elapsed) :: rest, st, cache =>
    let r := SNMPPoller.pollTick key sample elapsed st cache
    SNMPPoller.runTicks key rest r.1 r.2

/-- Int in [-2^63, 2^63) is left unchanged by int64 wrapping. -/
theorem wrap64_eq_self (x : Int) (h0 : -(2 ^ 63) ≤ x) (h1 : x < 2 ^ 63) : wrap64 x = x := by
  unfold wrap64
  have hmod : (x + 2 ^ 63) % 2 ^ 64 = x + 2 ^ 63 :=
    Int.emod_eq_of_lt (by omega) (by omega)
  omega

/-- Truncation toward zero agrees with the floor on nonnegative rationals. -/
theorem truncRat_nonneg_eq_floor (q : ℚ) (h : 0 ≤ q) : truncRat q = Int.floor q := by
  unfold truncRat
  rw [Rat.floor_def]
  exact Int.tdiv_eq_ediv (by exact_mod_cast Rat.num_nonneg.mpr h) (by positivity)

/-- C1: on a tick with a previous sample, positive elapsed time and a
current 32-bit counter value strictly below the previous one, exactly one
wraparound correction is applied: the rate written to the cache is the
truncated quotient of `curValue - prevValue + 2^32` by the elapsed seconds,
and the stored sample becomes the current one. -/
theorem snmp_rate_wraparound_correction (st : TickState) (cache : MetricCache)
    (key : String) (val : Int) (elapsed : ℚ)
    (hprev : st.prevTimeSet = true) (helapsed : 0 < elapsed)
    (hv0 : 0 ≤ val) (hv1 : val < 2 ^ 32)
    (hp0 : 0 ≤ st.prevValue) (hp1 : st.prevValue < 2 ^ 32)
    (hlt : val < st.prevValue) :
    SNMPPoller.pollTick key (some val) elapsed st cache =
      ({ prevValue := val, prevTimeSet := true },
        EmbeddedPoller.SetCache cache key
          (truncRat (((val - st.prevValue + 2 ^ 32 : ℤ) : ℚ) / elapsed))) := by
  have h1 : wrap64 (val - st.prevValue) = val - st.prevValue :=
    wrap64_eq_self _ (by omega) (by omega)
  have h2 : wrap64 (val - st.prevValue + 4294967296) = val - st.prevValue + 4294967296 :=
    wrap64_eq_self _ (by omega) (by omega)
  have hneg : val - st.prevValue < 0 := by omega
  simp [SNMPPoller.pollTick, hprev, helapsed, h1, h2, hneg]

/-- C1 witness: counter goes from 4294967290 to 5 over 2 seconds; the
wrapped delta is 11 and the cached rate is 5 bytes/sec. -/
theorem snmp_rate_wraparound_correction_witness :
    SNMPPoller.pollTick "k" (some 5) 2 ⟨4294967290, true⟩ [] =
      (⟨5, true⟩, [("k", 5)]) := by
  have h := snmp_rate_wraparound_correction ⟨4294967290, true⟩ [] "k" 5 2 rfl
    (by norm_num) (by norm_num) (by norm_num) (by norm_num) (by norm_num) (by norm_num)
  rw [h]
  have h11 : ((5 : ℤ) - (⟨4294967290, true⟩ : TickState).prevValue + 2 ^ 32) = 11 := by
    norm_num
  rw [h11, truncRat_nonneg_eq_floor _ (by norm_num),
    show ((11 : ℤ) : ℚ) / 2 = ((11 : ℤ) : ℚ) / ((2 : ℕ) : ℚ) by norm_num,
    Rat.floor_intCast_div_natCast]
  rfl

/-- C2: on a tick with a previous sample, positive elapsed time and a
current 32-bit counter value at least the previous one, no wraparound
correction is applied: the cached rate under the task key is the truncated
quotient of `curValue - prevValue` by the elapsed seconds. -/
theorem snmp_rate_no_wraparound (st : TickState) (cache : MetricCache)
    (key : String) (val : Int) (elapsed : ℚ)
    (hprev : st.prevTimeSet = true) (helapsed : 0 < elapsed)
    (hv1 : val < 2 ^ 32) (hp0 : 0 ≤ st.prevValue)
    (hge : st.prevValue ≤ val) :
    SNMPPoller.pollTick key (some val) elapsed st cache =
      ({ prevValue := val, prevTimeSet := true },
        EmbeddedPoller.SetCache cache key
          (truncRat (((val - st.prevValue : ℤ) : ℚ) / elapsed))) ∧
    EmbeddedPoller.GetCache (SNMPPoller.pollTick key (some val) elapsed st cache).2 key =
      (truncRat (((val - st.prevValue : ℤ) : ℚ) / elapsed), true) := by
  have h1 : wrap64 (val - st.prevValue) = val - st.prevValue :=
    wrap64_eq_self _ (by omega) (by omega)
  have hnn : ¬(val - st.prevValue < 0) := by omega
  constructor
  · simp [SNMPPoller.pollTick, hprev, helapsed, h1, hnn]
  · simp [SNMPPoller.pollTick, hprev, helapsed, h1, hnn,
      EmbeddedPoller.GetCache, EmbeddedPoller.SetCache, mapLookup]

/-- C2 witness: counter goes from 100 to 301 over 2 seconds; delta is 201
and the cached rate is the truncation 100. -/
theorem snmp_rate_no_wraparound_witness :
    EmbeddedPoller.GetCache
      (SNMPPoller.pollTick "k" (some 301) 2 ⟨100, true⟩ []).2 "k" = (100, true) := by
  have h := (snmp_rate_no_wraparound ⟨100, true⟩ [] "k" 301 2 rfl
    (by norm_num) (by norm_num) (by norm_num) (by norm_num)).2
  rw [h]
  have h201 : ((301 : ℤ) - (⟨100, true⟩ : TickState).prevValue) = 201 := by norm_num
  rw [h201, truncRat_nonneg_eq_floor _ (by positivity),
    show ((201 : ℤ) : ℚ) / 2 = ((201 : ℤ) : ℚ) / ((2 : ℕ) : ℚ) by norm_num,
    Rat.floor_intCast_div_natCast]
  rfl

/-- C3: on a tick whose sample succeeds but where either no previous
sample exists or the elapsed time is not positive, no rate is produced
and the cache is untouched, while the private previous-sample state is
still updated to the current sample. -/
theorem snmp_rate_none_first_or_nonpositive (st : TickState) (cache : MetricCache)
    (key : String) (val : Int) (elapsed : ℚ)
    (h : st.prevTimeSet = false ∨ elapsed ≤ 0) :
    SNMPPoller.pollTick key (some val) elapsed st cache =
      ({ prevValue := val, prevTimeSet := true }, cache) := by
  rcases h with h | h
  · simp [SNMPPoller.pollTick, h]
  · have : ¬(0 < elapsed) := not_lt.mpr h
    cases hb : st.prevTimeSet <;> simp [SNMPPoller.pollTick, hb, this]

/-- C3 witness: the first tick for a task stores the sample and writes no
rate; a later tick with elapsed 0 also writes no rate. -/
theorem snmp_rate_none_first_or_nonpositive_witness :
    SNMPPoller.pollTick "k" (some 7) 1 ⟨0, false⟩ [] = (⟨7, true⟩, []) ∧
    SNMPPoller.pollTick "k" (some 9) 0 ⟨7, true⟩ [] = (⟨9, true⟩, []) :=
  ⟨snmp_rate_none_first_or_nonpositive ⟨0, false⟩ [] "k" 7 1 (Or.inl rfl),
   snmp_rate_none_first_or_nonpositive ⟨7, true⟩ [] "k" 9 0 (Or.inr (by norm_num))⟩

/-- Adding a task twice in a row is the same as adding it once. -/
theorem addTask_self_idem (tasks : List dataPollTask) (task : dataPollTask) :
    EmbeddedPoller.AddTask (EmbeddedPoller.AddTask tasks task) task =
      EmbeddedPoller.AddTask tasks task := by
  by_cases h : tasks.any (fun t => t.key == task.key)
  · simp [EmbeddedPoller.AddTask, h]
  · simp [EmbeddedPoller.AddTask, h, List.any_append]

/-- C4: task registration is idempotent by key: adding a task whose key
already occurs leaves the registry unchanged; repeating the same
registration any positive number of times equals doing it once; and a
fresh registration results in exactly one task under that key. -/
theorem addTask_idempotent_by_key (tasks : List dataPollTask) (task : dataPollTask) :
    ((∃ t ∈ tasks, t.key = task.key) → EmbeddedPoller.AddTask tasks task = tasks) ∧
    (∀ n : Nat, (fun l => EmbeddedPoller.AddTask l task)^[n + 1] tasks =
      EmbeddedPoller.AddTask tasks task) ∧
    (countKey tasks task.key = 0 →
      countKey (EmbeddedPoller.AddTask tasks task) task.key = 1) := by
  refine ⟨?_, ?_, ?_⟩
  · rintro ⟨t, ht, hk⟩
    have hany : tasks.any (fun t => t.key == task.key) = true := by
      simp only [List.any_eq_true, beq_iff_eq]
      exact ⟨t, ht, hk⟩
    simp [EmbeddedPoller.AddTask, hany]
  · intro n
    induction n with
    | zero => simp
    | succ n ih =>
      rw [Function.iterate_succ_apply', ih]
      exact addTask_self_idem tasks task
  · intro h0
    have hnil : tasks.filter (fun t => t.key == task.key) = [] :=
      List.length_eq_zero.mp h0
    have hany : tasks.any (fun t => t.key == task.key) = false := by
      rw [List.any_eq_false]
      intro t ht
      have := List.filter_eq_nil_iff.mp hnil t ht
      simpa using this
    simp [EmbeddedPoller.AddTask, hany, countKey, List.filter_append, hnil]

/-- A concrete mock data source used for witnesses. -/
def exDS : DataSourceConfig :=
  { name := "m", type := "mock", interfaces := [], pollInterval := 0, params := [] }

/-- A concrete poll task used for witnesses. -/
def exTask : dataPollTask :=
  { host := "h", port := 161, community := "public", metricIdentifier := "in",
    key := "h:161:1.3.6.1.2.1.2.2.1.10.1", ds := exDS, intervalSeconds := 3 }

/-- C4 witness: adding a task whose key is present is a no-op, and a fresh
registration leaves exactly one task under the key. -/
theorem addTask_idempotent_by_key_witness :
    EmbeddedPoller.AddTask [exTask] exTask = [exTask] ∧
    countKey (EmbeddedPoller.AddTask [] exTask) exTask.key = 1 :=
  ⟨(addTask_idempotent_by_key [exTask] exTask).1 ⟨exTask, List.mem_singleton.mpr rfl, rfl⟩,
   (addTask_idempotent_by_key [] exTask).2.2 rfl⟩

/-- Reading a key just written returns the written value with found. -/
theorem getCache_setCache_self (cache : MetricCache) (k : String) (v : Int) :
    EmbeddedPoller.GetCache (EmbeddedPoller.SetCache cache k v) k = (v, true) := by
  simp [EmbeddedPoller.GetCache, EmbeddedPoller.SetCache, mapLookup]

/-- Writing one key does not disturb reads of another key. -/
theorem getCache_setCache_other (cache : MetricCache) (k k2 : String) (v : Int)
    (h : k2 ≠ k) :
    EmbeddedPoller.GetCache (EmbeddedPoller.SetCache cache k2 v) k =
      EmbeddedPoller.GetCache cache k := by
  simp [EmbeddedPoller.GetCache, EmbeddedPoller.SetCache, mapLookup, h]

/-- Folding cache writes whose keys all differ from `k` preserves reads of `k`. -/
theorem getCache_foldl_setCache_not_mem {β : Type} (f : β → String) (g : β → Int)
    (l : List β) (c : MetricCache) (k : String) (h : ∀ b ∈ l, f b ≠ k) :
    EmbeddedPoller.GetCache
      (l.foldl (fun c b => EmbeddedPoller.SetCache c (f b) (g b)) c) k =
    EmbeddedPoller.GetCache c k := by
  induction l generalizing c with
  | nil => rfl
  | cons b rest ih =>
    rw [List.foldl_cons, ih _ (fun x hx => h x (List.mem_cons_of_mem b hx)),
      getCache_setCache_other _ _ _ _ (h b (List.mem_cons_self b rest))]

/-- A cache obtained by performing a chronological list of writes, starting
from the empty cache a poller is constructed with. -/
def applyWrites (ws : List (String × Int)) : MetricCache :=
  ws.foldl (fun c w => EmbeddedPoller.SetCache c w.1 w.2) []

/-- C7: reading a key never written returns the zero value and found=false;
a written value is returned by subsequent reads of its key, and writes to
other keys never evict it. -/
theorem cache_miss_default_and_no_eviction (ws : List (String × Int))
    (cache : MetricCache) (k k2 : String) (v : Int) :
    (k ∉ ws.map Prod.fst → EmbeddedPoller.GetCache (applyWrites ws) k = (0, false)) ∧
    EmbeddedPoller.GetCache (EmbeddedPoller.SetCache cache k v) k = (v, true) ∧
    (k2 ≠ k → EmbeddedPoller.GetCache (EmbeddedPoller.SetCache cache k2 v) k =
      EmbeddedPoller.GetCache cache k) := by
  refine ⟨?_, getCache_setCache_self cache k v, fun h => getCache_setCache_other cache k k2 v h⟩
  intro hk
  unfold applyWrites
  rw [getCache_foldl_setCache_not_mem (fun w => w.1) (fun w => w.2) ws [] k ?_]
  · rfl
  · intro b hb hbk
    exact hk (hbk ▸ List.mem_map_of_mem Prod.fst hb)

/-- C7 witness: a never-written key reads as (0, false) even after other
writes; a written key keeps its value across writes to other keys. -/
theorem cache_miss_default_and_no_eviction_witness :
    EmbeddedPoller.GetCache (applyWrites [("a", 7), ("b", 9)]) "never" = (0, false) ∧
    EmbeddedPoller.GetCache (EmbeddedPoller.SetCache [("a", 7)] "b" 9) "a" =
      EmbeddedPoller.GetCache [("a", 7)] "a" :=
  ⟨(cache_miss_default_and_no_eviction [("a", 7), ("b", 9)] [] "never" "x" 0).1 (by decide),
   (cache_miss_default_and_no_eviction [] [("a", 7)] "a" "b" 9).2.2 (by decide)⟩

/-- C8: a tick whose sample acquisition fails (backend error or non-int64
value) performs no cache mutation and leaves the previous-sample state
untouched, and the task keeps running: the remaining ticks proceed exactly
as if the failed tick had not happened. -/
theorem snmp_failed_tick_no_mutation (key : String) (elapsed : ℚ) (st : TickState)
    (cache : MetricCache) (rest : List (Option Int × ℚ)) :
    SNMPPoller.pollTick key none elapsed st cache = (st, cache) ∧
    SNMPPoller.runTicks key ((none, elapsed) :: rest) st cache =
      SNMPPoller.runTicks key rest st cache :=
  ⟨rfl, rfl⟩

/-- config.TrafficData as produced by MockClient.GetTraffic (the timestamp
and utilization fields are not read by the mock poll loop). -/
structure TrafficData where
  inBytes : Int
  outBytes : Int

/-- The value the MockPoller tick assigns for one task: the switch on
`task.MetricIdentifier` with the int64 zero value as default. -/
def MockPoller.taskValue (metricIdentifier : String) (traffic : TrafficData) : Int :=
  if metricIdentifier = "in" then traffic.inBytes
  else if metricIdentifier = "out" then traffic.outBytes
  else 0

/-- One generator tick of MockPoller.Start: for every registered task,
write its value into the cache. -/
def MockPoller.tick (tasks : List dataPollTask) (traffic : TrafficData)
    (cache : MetricCache) : MetricCache :=
  tasks.foldl (fun c task =>
    EmbeddedPoller.SetCache c task.key (MockPoller.taskValue task.metricIdentifier traffic)) cache

/-- Each registered task's key, when the keys are pairwise distinct, reads
back its own value after a mock tick. -/
theorem mock_tick_lookup (tasks : List dataPollTask) (traffic : TrafficData) :
    ∀ cache : MetricCache, (tasks.map (fun t => t.key)).Nodup →
    ∀ task ∈ tasks,
      EmbeddedPoller.GetCache (MockPoller.tick tasks traffic cache) task.key =
        (MockPoller.taskValue task.metricIdentifier traffic, true) := by
  induction tasks with
  | nil => intro cache _ task htask; cases htask
  | cons t rest ih =>
    intro cache hkeys task htask
    rw [List.map_cons, List.nodup_cons] at hkeys
    rcases List.mem_cons.mp htask with h | h
    · subst h
      unfold MockPoller.tick
      rw [List.foldl_cons,
        getCache_foldl_setCache_not_mem (fun t => t.key) _ rest _ task.key
          (fun b hb hbk => hkeys.1 (hbk ▸ List.mem_map_of_mem (fun t => t.key) hb)),
        getCache_setCache_self]
    · exact ih _ hkeys.2 task h

/-- C10: on a mock generator tick every registered task gets a cache write:
tasks with metric identifier "in" or "out" receive the generator's
corresponding field and any other identifier receives 0. -/
theorem mock_tick_writes_every_task (tasks : List dataPollTask) (traffic : TrafficData)
    (cache : MetricCache) (hkeys : (tasks.map (fun t => t.key)).Nodup) :
    (∀ task ∈ tasks,
      EmbeddedPoller.GetCache (MockPoller.tick tasks traffic cache) task.key =
        (MockPoller.taskValue task.metricIdentifier traffic, true)) ∧
    MockPoller.taskValue "in" traffic = traffic.inBytes ∧
    MockPoller.taskValue "out" traffic = traffic.outBytes ∧
    (∀ m, m ≠ "in" → m ≠ "out" → MockPoller.taskValue m traffic = 0) :=
  ⟨mock_tick_lookup tasks traffic cache hkeys, rfl, rfl,
   fun m h1 h2 => by simp [MockPoller.taskValue, h1, h2]⟩

/-- Mock task for the "in" metric, used for witnesses. -/
def exTaskIn : dataPollTask :=
  { host := "m", port := 0, community := "", metricIdentifier := "in",
    key := "m:eth0:in", ds := exDS, intervalSeconds := 3 }

/-- Mock task for the "out" metric, used for witnesses. -/
def exTaskOut : dataPollTask :=
  { host := "m", port := 0, community := "", metricIdentifier := "out",
    key := "m:eth0:out", ds := exDS, intervalSeconds := 3 }

/-- Mock task for a "status" metric, used for witnesses. -/
def exTaskOther : dataPollTask :=
  { host := "m", port := 0, community := "", metricIdentifier := "status",
    key := "m:eth0:status", ds := exDS, intervalSeconds := 3 }

/-- C10 witness: after one mock tick, the "in" task reads the generator's
in-field, the "out" task the out-field, and the "status" task reads 0. -/
theorem mock_tick_writes_every_task_witness :
    EmbeddedPoller.GetCache (MockPoller.tick [exTaskIn, exTaskOut, exTaskOther]
      ⟨1000, 800⟩ []) exTaskIn.key = (1000, true) ∧
    EmbeddedPoller.GetCache (MockPoller.tick [exTaskIn, exTaskOut, exTaskOther]
      ⟨1000, 800⟩ []) exTaskOut.key = (800, true) ∧
    EmbeddedPoller.GetCache (MockPoller.tick [exTaskIn, exTaskOut, exTaskOther]
      ⟨1000, 800⟩ []) exTaskOther.key = (0, true) := by
  have h := (mock_tick_writes_every_task [exTaskIn, exTaskOut, exTaskOther]
    ⟨1000, 800⟩ [] (by decide)).1
  refine ⟨?_, ?_, ?_⟩
  · rw [h exTaskIn (List.Mem.head _)]; rfl
  · rw [h exTaskOut (List.Mem.tail _ (List.Mem.head _))]; rfl
  · rw [h exTaskOther (List.Mem.tail _ (List.Mem.tail _ (List.Mem.head _)))]; rfl

/-- The four backend poller kinds the factory knows. -/
inductive PollerKind where
  | snmp
  | mock
  | zabbix
  | prometheus
deriving DecidableEq

/-- CreatePoller: the poller factory switch; unknown type strings yield
nil, modelled as `none`. -/
def CreatePoller : String → Option PollerKind
  | "snmp" => some .snmp
  | "mock" => some .mock
  | "zabbix" => some .zabbix
  | "prometheus" => some .prometheus
  | _ => none

/-- The first loop of NewDataSourceService: for each data source, if no
poller is stored yet under its type, ask the factory; a nil factory result
is skipped with a warning, otherwise the poller is stored under the type. -/
def buildPollersAux : List DataSourceConfig → List (String × PollerKind) →
    List (String × PollerKind)
  | [], pollers => pollers
  | ds :: rest, pollers =>
    let pollers1 :=
      if (mapLookup pollers ds.type).isSome then pollers
      else
        match CreatePoller ds.type with
        | none => pollers
        | some p => pollers ++ [(ds.type, p)]
    buildPollersAux rest pollers1

/-- The poller map NewDataSourceService builds from the configured data
sources. -/
def buildPollers (dss : List DataSourceConfig) : List (String × PollerKind) :=
  buildPollersAux dss []

/-- getMetricNames: for the snmp type, the keys of the interface's "oids"
parameter; otherwise the string entries of its "metrics" list; nil when
the corresponding type assertion fails. -/
def getMetricNames (ds : DataSourceConfig) (iface : InterfaceConfig) : List String :=
  if ds.type = "snmp" then
    match (mapLookup iface.params "oids").bind GoVal.asMap with
    | some oids => oids.map Prod.fst
    | none => []
  else
    match (mapLookup iface.params "metrics").bind GoVal.asList with
    | some metrics => metrics.filterMap GoVal.asString
    | none => []

/-- One AddTask invocation performed by the registration loop of
NewDataSourceService. -/
structure TaskReg where
  pollerType : String
  dsName : String
  ifaceName : String
  metricName : String
  intervalSeconds : Int

/-- The AddTask invocations the registration loop performs for one data
source (every interface, every metric name, with the resolved interval). -/
def registrationsFor (ds : DataSourceConfig) : List TaskReg :=
  ds.interfaces.flatMap (fun iface =>
    (getMetricNames ds iface).map (fun m =>
      { pollerType := ds.type, dsName := ds.name, ifaceName := iface.name,
        metricName := m,
        intervalSeconds := if 0 < ds.pollInterval then ds.pollInterval else 3 }))

/-- The AddTask invocations of the second loop of NewDataSourceService:
data sources whose type has no stored poller are skipped entirely. -/
def attemptedRegistrations (dss : List DataSourceConfig)
    (pollers : List (String × PollerKind)) : List TaskReg :=
  dss.flatMap (fun ds =>
    match mapLookup pollers ds.type with
    | none => []
    | some _ => registrationsFor ds)

/-- A successful lookup is preserved when the list is extended on the right. -/
theorem mapLookup_append_some {α : Type} (l l2 : List (String × α)) (k : String) (v : α)
    (h : mapLookup l k = some v) : mapLookup (l ++ l2) k = some v := by
  induction l with
  | nil => simp [mapLookup] at h
  | cons p rest ih =>
    rw [List.cons_append]
    by_cases hk : p.1 = k
    · simp only [mapLookup, if_pos hk] at h ⊢
      exact h
    · simp only [mapLookup, if_neg hk] at h ⊢
      exact ih h

/-- A failed lookup defers to the extension on the right. -/
theorem mapLookup_append_none {α : Type} (l l2 : List (String × α)) (k : String)
    (h : mapLookup l k = none) : mapLookup (l ++ l2) k = mapLookup l2 k := by
  induction l with
  | nil => rfl
  | cons p rest ih =>
    rw [List.cons_append]
    by_cases hk : p.1 = k
    · simp only [mapLookup, if_pos hk] at h
      exact absurd h (Option.some_ne_none _)
    · simp only [mapLookup, if_neg hk] at h ⊢
      exact ih h

/-- A key whose lookup fails does not occur among the stored keys. -/
theorem mapLookup_none_not_mem {α : Type} (l : List (String × α)) (k : String)
    (h : mapLookup l k = none) : k ∉ l.map Prod.fst := by
  induction l with
  | nil => simp
  | cons p rest ih =>
    intro hmem
    rw [List.map_cons] at hmem
    by_cases hk : p.1 = k
    · simp only [mapLookup, if_pos hk] at h
      exact absurd h (Option.some_ne_none _)
    · simp only [mapLookup, if_neg hk] at h
      rcases List.mem_cons.mp hmem with h1 | h1
      · exact hk h1.symm
      · exact ih h h1

/-- A successful lookup exhibits a stored binding. -/
theorem mapLookup_mem {α : Type} (l : List (String × α)) (k : String) (v : α)
    (h : mapLookup l k = some v) : (k, v) ∈ l := by
  induction l with
  | nil => simp [mapLookup] at h
  | cons p rest ih =>
    by_cases hk : p.1 = k
    · simp only [mapLookup, if_pos hk] at h
      have : (k, v) = p := by
        cases p
        cases h
        simp_all
      exact this ▸ List.mem_cons_self _ _
    · simp only [mapLookup, if_neg hk] at h
      exact List.mem_cons_of_mem p (ih h)

/-- Every binding of the built poller map comes from the factory, keyed by
a backend type that occurs among the data sources. -/
theorem buildPollersAux_mem (dss : List DataSourceConfig) :
    ∀ acc pr, pr ∈ buildPollersAux dss acc →
      pr ∈ acc ∨ (CreatePoller pr.1 = some pr.2 ∧ ∃ ds ∈ dss, ds.type = pr.1) := by
  induction dss with
  | nil => intro acc pr h; exact Or.inl h
  | cons ds rest ih =>
    intro acc pr h
    rw [buildPollersAux] at h
    rcases ih _ pr h with hmem | ⟨hcp, d, hd, hty⟩
    · by_cases hl : (mapLookup acc ds.type).isSome
      · simp only [if_pos hl] at hmem
        exact Or.inl hmem
      · simp only [if_neg hl] at hmem
        cases hc : CreatePoller ds.type with
        | none => rw [hc] at hmem; exact Or.inl hmem
        | some p =>
          rw [hc] at hmem
          rcases List.mem_append.mp hmem with h1 | h1
          · exact Or.inl h1
          · rcases List.mem_singleton.mp h1 with rfl
            exact Or.inr ⟨hc, ds, List.mem_cons_self _ _, rfl⟩
    · exact Or.inr ⟨hcp, d, List.mem_cons_of_mem ds hd, hty⟩

/-- Building pollers never introduces a duplicate backend-type key. -/
theorem buildPollersAux_nodup (dss : List DataSourceConfig) :
    ∀ acc : List (String × PollerKind), (acc.map Prod.fst).Nodup →
      ((buildPollersAux dss acc).map Prod.fst).Nodup := by
  induction dss with
  | nil => intro acc h; exact h
  | cons ds rest ih =>
    intro acc h
    rw [buildPollersAux]
    by_cases hl : (mapLookup acc ds.type).isSome
    · simp only [if_pos hl]
      exact ih _ h
    · simp only [if_neg hl]
      cases hc : CreatePoller ds.type with
      | none => exact ih _ h
      | some p =>
        refine ih _ ?_
        rw [List.map_append]
        simp only [List.map_cons, List.map_nil]
        rw [List.nodup_append]
        refine ⟨h, List.nodup_singleton _, ?_⟩
        intro x hx hx1
        rcases List.mem_singleton.mp hx1 with rfl
        exact mapLookup_none_not_mem acc ds.type
          (Option.not_isSome_iff_eq_none.mp hl) hx

/-- A stored poller stays stored while the rest of the build runs. -/
theorem buildPollersAux_lookup_mono (dss : List DataSourceConfig) :
    ∀ acc ty, (mapLookup acc ty).isSome →
      (mapLookup (buildPollersAux dss acc) ty).isSome := by
  induction dss with
  | nil => intro acc ty h; exact h
  | cons ds rest ih =>
    intro acc ty h
    rw [buildPollersAux]
    by_cases hl : (mapLookup acc ds.type).isSome
    · simp only [if_pos hl]; exact ih _ _ h
    · simp only [if_neg hl]
      cases hc : CreatePoller ds.type with
      | none => exact ih _ _ h
      | some p =>
        refine ih _ _ ?_
        rcases Option.isSome_iff_exists.mp h with ⟨v, hv⟩
        rw [mapLookup_append_some acc _ ty v hv]
        rfl

/-- Every data source whose type the factory knows ends up with a stored
poller under its type. -/
theorem buildPollersAux_present (dss : List DataSourceConfig) :
    ∀ acc, ∀ ds ∈ dss, (CreatePoller ds.type).isSome →
      (mapLookup (buildPollersAux dss acc) ds.type).isSome := by
  induction dss with
  | nil => intro acc ds h; cases h
  | cons d rest ih =>
    intro acc ds hds hcp
    rcases List.mem_cons.mp hds with rfl | hmem
    · rw [buildPollersAux]
      by_cases hl : (mapLookup acc ds.type).isSome
      · simp only [if_pos hl]
        exact buildPollersAux_lookup_mono rest _ _ hl
      · simp only [if_neg hl]
        rcases Option.isSome_iff_exists.mp hcp with ⟨p, hp⟩
        rw [hp]
        refine buildPollersAux_lookup_mono rest _ _ ?_
        rw [mapLookup_append_none acc _ ds.type (Option.not_isSome_iff_eq_none.mp hl)]
        simp [mapLookup]
    · rw [buildPollersAux]
      exact ih _ ds hmem hcp

/-- C5: the factory yields none exactly for types outside snmp, mock,
zabbix, prometheus; the built poller map holds at most one poller per
distinct type; its entries come from the factory for types occurring among
the data sources, every data source with a known type gets a poller, and
every task registration the service attempts targets a known poller type
(so no task at all is registered for a data source of unknown type). -/
theorem createPoller_one_per_type_and_skip (dss : List DataSourceConfig) :
    (∀ ty, ty ≠ "snmp" → ty ≠ "mock" → ty ≠ "zabbix" → ty ≠ "prometheus" →
      CreatePoller ty = none) ∧
    ((buildPollers dss).map Prod.fst).Nodup ∧
    (∀ ty p, mapLookup (buildPollers dss) ty = some p →
      CreatePoller ty = some p ∧ ∃ ds ∈ dss, ds.type = ty) ∧
    (∀ ds ∈ dss, (CreatePoller ds.type).isSome →
      (mapLookup (buildPollers dss) ds.type).isSome) ∧
    (∀ r ∈ attemptedRegistrations dss (buildPollers dss),
      (CreatePoller r.pollerType).isSome) := by
  refine ⟨?_, ?_, ?_, ?_, ?_⟩
  · intro ty h1 h2 h3 h4
    unfold CreatePoller
    split <;> simp_all
  · exact buildPollersAux_nodup dss [] (by simp)
  · intro ty p h
    rcases buildPollersAux_mem dss [] (ty, p) (mapLookup_mem _ _ _ h) with hmem | hok
    · cases hmem
    · exact hok
  · intro ds hds hcp
    exact buildPollersAux_present dss [] ds hds hcp
  · intro r hr
    unfold attemptedRegistrations at hr
    rcases List.mem_flatMap.mp hr with ⟨ds, hds, hrin⟩
    cases hl : mapLookup (buildPollers dss) ds.type with
    | none => rw [hl] at hrin; cases hrin
    | some p =>
      rw [hl] at hrin
      have hty : r.pollerType = ds.type := by
        unfold registrationsFor at hrin
        rcases List.mem_flatMap.mp hrin with ⟨iface, _, hm⟩
        rcases List.mem_map.mp hm with ⟨m, _, hr2⟩
        rw [← hr2]
      rw [hty]
      rcases buildPollersAux_mem dss [] (ds.type, p) (mapLookup_mem _ _ _ hl) with h0 | ⟨hcp, _⟩
      · cases h0
      · rw [hcp]; rfl

/-- A data source of an unknown backend type, used for witnesses. -/
def exUnknownDS : DataSourceConfig :=
  { name := "u", type := "carrier", interfaces := [], pollInterval := 0, params := [] }

/-- C5 witness: the factory rejects an unknown type, and a mock data
source in the same configuration still gets its poller. -/
theorem createPoller_one_per_type_and_skip_witness :
    CreatePoller "carrier" = none ∧
    (mapLookup (buildPollers [exDS, exUnknownDS]) "mock").isSome :=
  ⟨(createPoller_one_per_type_and_skip []).1 "carrier"
      (by decide) (by decide) (by decide) (by decide),
   (createPoller_one_per_type_and_skip [exDS, exUnknownDS]).2.2.2.1 exDS
      (List.Mem.head _) (by decide)⟩

/-- SNMP cache key `host:port:oid` as built by fmt.Sprintf. -/
def snmpKey (host : String) (port : Int) (oid : String) : String :=
  host ++ ":" ++ toString port ++ ":" ++ oid

/-- Mock cache key `ds:iface:metric` as built by fmt.Sprintf. -/
def mockKey (dsName ifaceName metricName : String) : String :=
  dsName ++ ":" ++ ifaceName ++ ":" ++ metricName

/-- A Go `interface\x7b\x7d` value returned by GetMetric: nil or an integer. -/
inductive GoRet where
  | vnil
  | vint (n : Int)
deriving DecidableEq

/-- SNMPPoller.GetMetric: nil when the "oids" bag or the metric's OID is
missing or ill-typed; otherwise the cached value under host:port:oid (the
int64 zero value when never polled). -/
def SNMPPoller.GetMetric (cache : MetricCache) (ds : DataSourceConfig)
    (iface : InterfaceConfig) (metricName : String) : GoRet :=
  match (mapLookup iface.params "oids").bind GoVal.asMap with
  | none => .vnil
  | some oids =>
    match (mapLookup oids metricName).bind GoVal.asString with
    | none => .vnil
    | some oid =>
      let host := ((mapLookup ds.params "host").bind GoVal.asString).getD ""
      let port := ((mapLookup ds.params "port").bind GoVal.asInt).getD 0
      .vint (EmbeddedPoller.GetCache cache (snmpKey host port oid)).1

/-- MockPoller.GetMetric: the cached value under ds:iface:metric. -/
def MockPoller.GetMetric (cache : MetricCache) (ds : DataSourceConfig)
    (iface : InterfaceConfig) (metricName : String) : GoRet :=
  .vint (EmbeddedPoller.GetCache cache (mockKey ds.name iface.name metricName)).1

/-- A live Backend Poller: its kind together with its metric cache (unused
by the Zabbix and Prometheus stubs). -/
structure Poller where
  kind : PollerKind
  cache : MetricCache

/-- Dynamic dispatch of GetMetric over the poller kinds; the Zabbix and
Prometheus stubs always return 0. -/
def Poller.GetMetric (p : Poller) (ds : DataSourceConfig)
    (iface : InterfaceConfig) (metricName : String) : GoRet :=
  match p.kind with
  | .snmp => SNMPPoller.GetMetric p.cache ds iface metricName
  | .mock => MockPoller.GetMetric p.cache ds iface metricName
  | .zabbix => .vint 0
  | .prometheus => .vint 0

/-- DataSourceService state: the name-keyed data source map and the
type-keyed poller map. -/
structure DataSourceService where
  datasources : List (String × DataSourceConfig)
  pollers : List (String × Poller)

/-- The linear scan of GetInterfaceMetrics for the named interface. -/
def findInterface (ds : DataSourceConfig) (ifaceName : String) : Option InterfaceConfig :=
  ds.interfaces.find? (fun i => i.name == ifaceName)

/-- The poller-type defaulting of GetInterfaceMetrics: an empty configured
type falls back to the snmp poller type. -/
def resolvePollerType (t : String) : String :=
  if t = "" then "snmp" else t

/-- DataSourceService.GetInterfaceMetrics. -/
def DataSourceService.GetInterfaceMetrics (s : DataSourceService)
    (dsName ifaceName : String) (metrics : List String) :
    Except String (List (String × GoRet)) :=
  match mapLookup s.datasources dsName with
  | none => .error ("datasource not found: " ++ dsName)
  | some ds =>
    match findInterface ds ifaceName with
    | none => .error ("interface not found: " ++ ifaceName)
    | some iface =>
      match mapLookup s.pollers (resolvePollerType ds.type) with
      | none => .error ("poller for type " ++ resolvePollerType ds.type ++ " not found")
      | some poller =>
        .ok (metrics.map (fun m => (m, Poller.GetMetric poller ds iface m)))

/-- Looking up any listed key in the pairing of a list with a function
succeeds. -/
theorem mapLookup_map_pair_isSome (metrics : List String) (f : String → GoRet)
    (m : String) (hm : m ∈ metrics) :
    (mapLookup (metrics.map (fun x => (x, f x))) m).isSome := by
  induction metrics with
  | nil => cases hm
  | cons a rest ih =>
    rw [List.map_cons]
    by_cases hma : a = m
    · simp [mapLookup, hma]
    · simp only [mapLookup, if_neg hma]
      rcases List.mem_cons.mp hm with h1 | h1
      · exact absurd h1.symm hma
      · exact ih h1

/-- C6: GetInterfaceMetrics fails exactly when the data source name is
unknown, the interface name is unknown in it, or no poller is stored under
the data source's (resolved) backend type; on success the returned mapping
has an entry for every requested metric name. -/
theorem getInterfaceMetrics_notfound_iff (s : DataSourceService)
    (dsName ifaceName : String) (metrics : List String) :
    ((∃ e, s.GetInterfaceMetrics dsName ifaceName metrics = .error e) ↔
      mapLookup s.datasources dsName = none ∨
      (∃ ds, mapLookup s.datasources dsName = some ds ∧
        (findInterface ds ifaceName = none ∨
         ((findInterface ds ifaceName).isSome ∧
           mapLookup s.pollers (resolvePollerType ds.type) = none)))) ∧
    (∀ res, s.GetInterfaceMetrics dsName ifaceName metrics = .ok res →
      ∀ m ∈ metrics, (mapLookup res m).isSome) := by
  constructor
  · cases hds : mapLookup s.datasources dsName with
    | none => simp [DataSourceService.GetInterfaceMetrics, hds]
    | some ds =>
      cases hif : findInterface ds ifaceName with
      | none => simp [DataSourceService.GetInterfaceMetrics, hds, hif]
      | some iface =>
        cases hp : mapLookup s.pollers (resolvePollerType ds.type) with
        | none => simp [DataSourceService.GetInterfaceMetrics, hds, hif, hp]
        | some poller => simp [DataSourceService.GetInterfaceMetrics, hds, hif, hp]
  · intro res hres m hm
    cases hds : mapLookup s.datasources dsName with
    | none => simp [DataSourceService.GetInterfaceMetrics, hds] at hres
    | some ds =>
      cases hif : findInterface ds ifaceName with
      | none => simp [DataSourceService.GetInterfaceMetrics, hds, hif] at hres
      | some iface =>
        cases hp : mapLookup s.pollers (resolvePollerType ds.type) with
        | none => simp [DataSourceService.GetInterfaceMetrics, hds, hif, hp] at hres
        | some poller =>
          simp only [DataSourceService.GetInterfaceMetrics, hds, hif, hp,
            Except.ok.injEq] at hres
          rw [← hres]
          exact mapLookup_map_pair_isSome metrics _ m hm

/-- C9: inside GetInterfaceMetrics a data source configured with the empty
backend type is served through the "snmp" poller entry: the outcome is
decided by the lookup of "snmp" in the poller map, not of the empty string. -/
theorem empty_type_uses_snmp_poller (s : DataSourceService)
    (dsName ifaceName : String) (metrics : List String)
    (ds : DataSourceConfig) (iface : InterfaceConfig)
    (hds : mapLookup s.datasources dsName = some ds)
    (htype : ds.type = "")
    (hiface : findInterface ds ifaceName = some iface) :
    resolvePollerType ds.type = "snmp" ∧
    s.GetInterfaceMetrics dsName ifaceName metrics =
      (match mapLookup s.pollers "snmp" with
       | none => .error ("poller for type " ++ "snmp" ++ " not found")
       | some poller =>
         .ok (metrics.map (fun m => (m, Poller.GetMetric poller ds iface m)))) := by
  have h1 : resolvePollerType ds.type = "snmp" := by rw [htype]; rfl
  refine ⟨h1, ?_⟩
  cases hp : mapLookup s.pollers "snmp" with
  | none => simp [DataSourceService.GetInterfaceMetrics, hds, hiface, h1, hp]
  | some poller => simp [DataSourceService.GetInterfaceMetrics, hds, hiface, h1, hp]

/-- An interface with an empty parameter bag, used for witnesses. -/
def exIfaceEmpty : InterfaceConfig := { name := "eth0", params := [] }

/-- A data source whose backend type is the empty string, used for
witnesses. -/
def exDSEmptyType : DataSourceConfig :=
  { name := "d", type := "", interfaces := [exIfaceEmpty], pollInterval := 0, params := [] }

/-- A service holding that data source and an snmp poller with an empty
cache, used for witnesses. -/
def exService : DataSourceService :=
  { datasources := [("d", exDSEmptyType)],
    pollers := [("snmp", { kind := .snmp, cache := [] })] }

/-- C6 witness: an unknown data source name fails with an error, and a
successful call's result contains each requested metric. -/
theorem getInterfaceMetrics_notfound_iff_witness :
    (∃ e, exService.GetInterfaceMetrics "unknown-ds" "eth0" ["in"] = .error e) ∧
    (mapLookup [("in", GoRet.vnil)] "in").isSome :=
  ⟨(getInterfaceMetrics_notfound_iff exService "unknown-ds" "eth0" ["in"]).1.mpr
      (Or.inl rfl),
   (getInterfaceMetrics_notfound_iff exService "d" "eth0" ["in"]).2
      [("in", GoRet.vnil)] rfl "in" (List.Mem.head _)⟩

/-- C9 witness: with an empty configured type and an snmp poller present,
the call succeeds through the snmp poller. -/
theorem empty_type_uses_snmp_poller_witness :
    exService.GetInterfaceMetrics "d" "eth0" ["in"] = .ok [("in", GoRet.vnil)] := by
  have h := (empty_type_uses_snmp_poller exService "d" "eth0" ["in"]
    exDSEmptyType exIfaceEmpty rfl rfl rfl).2
  rw [h]
  rfl
